import Mathlib

/-!
Verification of the ad-hoc query gateway (`RunQuery` in the handlers package).

The gateway accepts a JSON body `{ "sql": ... }`, trims the text, rejects
empty input, parses it with an external SQL parser, rejects every statement
kind other than a plain SELECT, appends ` LIMIT 100` when the upper-cased
text does not contain the substring `LIMIT`, submits the text to the
database, and materializes the cursor rows into maps keyed by the column
descriptor.

The SQL parser (github.com/blastrain/vitess-sqlparser) and the database
driver are external collaborators, so the embedding abstracts them as
function parameters; the control flow, the string rewriting and the row
materialization are translated from the source.  Go string helpers
(strings.TrimSpace, strings.ToUpper, strings.Contains) are embedded as
executable functions on character lists, restricted to ASCII case mapping.
-/

deriving instance DecidableEq for Except

/-- Whitespace recognized by the embedded strings.TrimSpace
(ASCII space classes). -/
def isSpaceChar (c : Char) : Bool :=
  c = ' ' || c = '\t' || c = '\n' || c = '\x0b' || c = '\x0c' || c = '\r'

/-- Drop leading and trailing whitespace from a character list. -/
def trimChars (l : List Char) : List Char :=
  ((l.dropWhile isSpaceChar).reverse.dropWhile isSpaceChar).reverse

/-- Embedded strings.TrimSpace. -/
def trimSpace (s : String) : String :=
  ⟨trimChars s.data⟩

/-- ASCII upper-casing of one character (Go's strings.ToUpper restricted to
the ASCII range, which covers the `LIMIT` token search). -/
def upChar (c : Char) : Char :=
  if 'a' ≤ c && c ≤ 'z' then Char.ofNat (c.toNat - 32) else c

/-- Is `pat` an initial segment of `l`? -/
def isPrefixList : List Char → List Char → Bool
  | [], _ => true
  | _ :: _, [] => false
  | a :: as, b :: bs => a = b && isPrefixList as bs

/-- Does `l` contain `pat` as a contiguous substring?
(embedded strings.Contains). -/
def hasSub (pat : List Char) : List Char → Bool
  | [] => isPrefixList pat []
  | b :: bs => isPrefixList pat (b :: bs) || hasSub pat bs

/-- `strings.Contains(strings.ToUpper(sqlText), "LIMIT")` from RunQuery. -/
def containsLimit (s : String) : Bool :=
  hasSub "LIMIT".data (s.data.map upChar)

/-- Top-level statement kind produced by the SQL parser; RunQuery only
distinguishes `*sqlparser.Select` from everything else. -/
inductive StmtKind where
  | select
  | insert
  | update
  | delete
  | ddl
  | multi
  | other
deriving DecidableEq, Repr

/-- A dynamically-typed scalar cell as decoded by the driver. -/
inductive Value where
  | null
  | bool (b : Bool)
  | int (i : Int)
  | str (s : String)
deriving DecidableEq, Repr

/-- The request body of the query endpoint. -/
structure QueryRequest where
  SQL : String
deriving DecidableEq, Repr

/-- Abstraction of the driver cursor obtained from `db.Query`: the result of
`rows.Columns()`, the result of each `rows.Scan` handed out by `rows.Next()`,
and the final `rows.Err()` value. -/
structure Cursor where
  columnsRes : Except String (List String)
  scannedRows : List (Except String (List Value))
  iterErr : Option String
deriving Repr

/-- The JSON payload RunQuery responds with: either `{"error": msg}` or
`{"columns": ..., "rows": ...}`. -/
inductive Payload where
  | err (msg : String)
  | result (columns : List String) (rows : List (List (String × Value)))
deriving DecidableEq, Repr

/-- Observable outcome of one RunQuery call: HTTP status, JSON payload, the
text handed to the parser (if any), and the text submitted to the database
(if any). -/
structure Outcome where
  status : Nat
  body : Payload
  parsed : Option String
  submitted : Option String
deriving DecidableEq, Repr

/-- Go map assignment `m[k] = v`: replace the binding if the key is present,
otherwise add it. -/
def mapSet : List (String × Value) → String → Value → List (String × Value)
  | [], k, v => [(k, v)]
  | p :: m, k, v => if p.1 = k then (k, v) :: m else p :: mapSet m k v

/-- `rowMap[col] = vals[i]` for every `i, col` in the column descriptor:
the loop building one response row in RunQuery. -/
def buildRow (cols : List String) (vals : List Value) : List (String × Value) :=
  (List.zip cols vals).foldl (fun m p => mapSet m p.1 p.2) []

/-- Key-presence test on a materialized row. -/
def hasKey (m : List (String × Value)) (k : String) : Bool :=
  m.any fun p => p.1 = k

/-- Lookup on a materialized row. -/
def getVal (m : List (String × Value)) (k : String) : Option Value :=
  (m.find? fun p => p.1 = k).map Prod.snd

/-- The row loop of RunQuery: scan each row (database/sql's Scan fails when
the value count differs from the column count), stop at the first failure,
otherwise materialize every row with `buildRow`. -/
def scanRows (cols : List String) :
    List (Except String (List Value)) →
      Except String (List (List (String × Value)))
  | [] => .ok []
  | .error e :: _ => .error e
  | .ok vals :: rest =>
    if vals.length = cols.length then
      match scanRows cols rest with
      | .error e => .error e
      | .ok rs => .ok (buildRow cols vals :: rs)
    else .error "destination arguments in Scan do not match columns"

/-- The executor/materializer phase of RunQuery, entered after the policy
checks: submit `sqlExec`, fetch columns, scan rows, check the iteration
error, and answer.  `sqlParsed` is the text that was handed to the parser. -/
def execPhase (db : String → Except String Cursor)
    (sqlExec sqlParsed : String) : Outcome :=
  match db sqlExec with
  | .error e =>
    { status := 500, body := .err ("Execution failed: " ++ e),
      parsed := some sqlParsed, submitted := some sqlExec }
  | .ok rows =>
    match rows.columnsRes with
    | .error e =>
      { status := 500, body := .err ("Failed to get columns: " ++ e),
        parsed := some sqlParsed, submitted := some sqlExec }
    | .ok cols =>
      match scanRows cols rows.scannedRows with
      | .error e =>
        { status := 500, body := .err ("Row scan failed: " ++ e),
          parsed := some sqlParsed, submitted := some sqlExec }
      | .ok result =>
        match rows.iterErr with
        | some e =>
          { status := 500, body := .err ("Row iteration error: " ++ e),
            parsed := some sqlParsed, submitted := some sqlExec }
        | none =>
          { status := 200, body := .result cols result,
            parsed := some sqlParsed, submitted := some sqlExec }

/-- The part of RunQuery after JSON binding, applied to the trimmed SQL
text: empty-input check, parse, SELECT-only policy, LIMIT injection, then
the executor phase. -/
def handleSql (parse : String → Except String StmtKind)
    (db : String → Except String Cursor) (sqlText : String) : Outcome :=
  if sqlText = "" then
    { status := 400, body := .err "SQL cannot be empty",
      parsed := none, submitted := none }
  else
    match parse sqlText with
    | .error e =>
      { status := 400, body := .err ("SQL syntax error: " ++ e),
        parsed := some sqlText, submitted := none }
    | .ok kind =>
      match kind with
      | .select =>
        execPhase db
          (if !containsLimit sqlText then sqlText ++ " LIMIT 100" else sqlText)
          sqlText
      | _ =>
        { status := 400, body := .err "Only SELECT statements are allowed",
          parsed := some sqlText, submitted := none }

/-- The query gateway handler.  `parse` abstracts `sqlparser.Parse` (its
result reduced to the statement kind RunQuery switches on), `db` abstracts
`h.db.Query`, and `reqBody` is the JSON-decoded request body (`none` when
`c.BindJSON` fails). -/
def RunQuery (parse : String → Except String StmtKind)
    (db : String → Except String Cursor)
    (reqBody : Option QueryRequest) : Outcome :=
  match reqBody with
  | none =>
    { status := 400, body := .err "Invalid JSON",
      parsed := none, submitted := none }
  | some req => handleSql parse db (trimSpace req.SQL)

/-- Drop a trailing run of semicolons and whitespace. -/
def dropTrailingJunk (l : List Char) : List Char :=
  (l.reverse.dropWhile fun c => c = ';' || isSpaceChar c).reverse

/-- The first whitespace-delimited word. -/
def leadingWord (l : List Char) : List Char :=
  l.takeWhile fun c => !isSpaceChar c

/-- Modelled from the spec: the Syntax Classifier
(github.com/blastrain/vitess-sqlparser, an external collaborator not under
src/).  Per the spec it yields a statement kind (Select, Insert, Update,
Delete, Other/DDL) or a syntax error, and a semicolon-chained
multi-statement input is classified as a non-pure-SELECT kind, so the
SELECT-only check is not foolable by statement chaining. -/
def specClassify (s : String) : Except String StmtKind :=
  let body := dropTrailingJunk (trimChars s.data)
  if body.isEmpty then .error "syntax error"
  else if body.contains ';' then .ok .multi
  else
    let kw := (leadingWord body).map upChar
    if kw = "SELECT".data then .ok .select
    else if kw = "INSERT".data then .ok .insert
    else if kw = "UPDATE".data then .ok .update
    else if kw = "DELETE".data then .ok .delete
    else if kw = "CREATE".data || kw = "DROP".data || kw = "ALTER".data ||
        kw = "TRUNCATE".data then .ok .ddl
    else .error "syntax error"

/-- Is a scanned row a driver error? -/
def isScanErr : Except String (List Value) → Bool
  | .error _ => true
  | .ok _ => false

/-- A database that answers every submission with a one-column,
one-row cursor (`SELECT 1 AS x`). -/
def demoDb : String → Except String Cursor :=
  fun _ => .ok { columnsRes := .ok ["x"],
                 scannedRows := [.ok [.int 1]], iterErr := none }

/-- A database whose single row fails to scan. -/
def failScanDb : String → Except String Cursor :=
  fun _ => .ok { columnsRes := .ok ["x"],
                 scannedRows := [.error "connection reset"], iterErr := none }

/-- A database that refuses every submission. -/
def noDb : String → Except String Cursor :=
  fun _ => .error "no database"

example :
    RunQuery (fun _ => .ok .select)
      (fun _ => .ok ⟨.ok ["x"], [.ok [.int 1]], none⟩)
      (some ⟨"SELECT 1 AS x"⟩) =
    { status := 200, body := .result ["x"] [[("x", .int 1)]],
      parsed := some "SELECT 1 AS x",
      submitted := some "SELECT 1 AS x LIMIT 100" } := by decide

example : specClassify "  select * from users; drop table users;" = .ok .multi := by decide

example : specClassify "SELECT 1 AS x" = .ok .select := by decide

example : specClassify "DELETE FROM users" = .ok .delete := by decide

/-! ### Lemmas about the executor phase -/

theorem execPhase_submitted (db : String → Except String Cursor)
    (q t : String) : (execPhase db q t).submitted = some q := by
  unfold execPhase
  split
  · rfl
  · split
    · rfl
    · split
      · rfl
      · split <;> rfl

theorem execPhase_result {db : String → Except String Cursor} {q t : String}
    {cols : List String} {rws : List (List (String × Value))}
    (h : (execPhase db q t).body = .result cols rws) :
    ∃ cur, db q = .ok cur ∧ cur.columnsRes = .ok cols ∧
      scanRows cols cur.scannedRows = .ok rws := by
  unfold execPhase at h
  cases hdb : db q <;> simp only [hdb] at h
  case error e => simp at h
  case ok cur =>
    cases hc : cur.columnsRes <;> simp only [hc] at h
    case error e => simp at h
    case ok cols0 =>
      cases hs : scanRows cols0 cur.scannedRows <;> simp only [hs] at h
      case error e => simp at h
      case ok rws0 =>
        cases hie : cur.iterErr <;> simp only [hie] at h
        case some e => simp at h
        case none =>
          have h' : Payload.result cols0 rws0 = Payload.result cols rws := h
          obtain ⟨h1, h2⟩ := Payload.result.inj h'
          subst h1; subst h2
          exact ⟨cur, rfl, hc, hs⟩

/-! ### Lemmas about row scanning and row maps -/

theorem scanRows_ok_no_error {cols : List String}
    {rs : List (Except String (List Value))}
    {out : List (List (String × Value))}
    (h : scanRows cols rs = .ok out) : rs.any isScanErr = false := by
  induction rs generalizing out with
  | nil => simp
  | cons r rest ih =>
    cases r with
    | error e => simp [scanRows] at h
    | ok vals =>
      unfold scanRows at h
      by_cases hl : vals.length = cols.length
      · rw [if_pos hl] at h
        cases hs : scanRows cols rest <;> rw [hs] at h
        · cases h
        · simpa [isScanErr] using ih hs
      · rw [if_neg hl] at h; cases h

theorem scanRows_mem {cols : List String}
    {rs : List (Except String (List Value))}
    {out : List (List (String × Value))}
    (h : scanRows cols rs = .ok out) :
    ∀ r ∈ out, ∃ vals, vals.length = cols.length ∧ r = buildRow cols vals := by
  induction rs generalizing out with
  | nil =>
    unfold scanRows at h
    obtain rfl := Except.ok.inj h
    intro r hr; cases hr
  | cons x rest ih =>
    cases x with
    | error e => cases h
    | ok vals =>
      unfold scanRows at h
      by_cases hl : vals.length = cols.length
      · rw [if_pos hl] at h
        cases hs : scanRows cols rest <;> rw [hs] at h
        · cases h
        · obtain rfl := Except.ok.inj h
          intro r hr
          rcases List.mem_cons.mp hr with rfl | hr0
          · exact ⟨vals, hl, rfl⟩
          · exact ih hs r hr0
      · rw [if_neg hl] at h; cases h

theorem hasKey_mapSet (m : List (String × Value)) (k : String) (v : Value)
    (k' : String) : hasKey (mapSet m k v) k' = (decide (k = k') || hasKey m k') := by
  induction m with
  | nil => simp [mapSet, hasKey]
  | cons p m ih =>
    by_cases hp : p.1 = k
    · subst hp
      simp only [mapSet, if_pos rfl, hasKey, List.any_cons]
      cases hk : decide (p.1 = k') <;> simp_all
    · simp only [mapSet, if_neg hp, hasKey, List.any_cons] at *
      rw [ih]
      cases hk : decide (k = k') <;> simp_all

theorem getVal_mapSet_self (m : List (String × Value)) (k : String)
    (v : Value) : getVal (mapSet m k v) k = some v := by
  induction m with
  | nil => simp [mapSet, getVal]
  | cons p m ih =>
    by_cases hp : p.1 = k
    · simp [mapSet, hp, getVal]
    · simp only [mapSet, if_neg hp]
      simpa [getVal, List.find?_cons, hp] using ih

theorem getVal_mapSet_ne (m : List (String × Value)) (k : String) (v : Value)
    (k' : String) (h : k ≠ k') : getVal (mapSet m k v) k' = getVal m k' := by
  induction m with
  | nil => simp [mapSet, getVal, List.find?_cons, h]
  | cons p m ih =>
    by_cases hp : p.1 = k
    · subst hp
      simp [mapSet, getVal, List.find?_cons, h]
    · simp only [mapSet, if_neg hp]
      by_cases hk : p.1 = k'
      · simp [getVal, List.find?_cons, hk]
      · simpa [getVal, List.find?_cons, hk] using ih

theorem hasKey_foldl (l : List (String × Value)) (m0 : List (String × Value))
    (k : String) :
    hasKey (l.foldl (fun m p => mapSet m p.1 p.2) m0) k
      = ((l.any fun p => p.1 = k) || hasKey m0 k) := by
  induction l generalizing m0 with
  | nil => simp
  | cons p l ih =>
    simp only [List.foldl_cons, List.any_cons, ih, hasKey_mapSet]
    cases hk : decide (p.1 = k) <;> simp

theorem hasKey_buildRow (cols : List String) (vals : List Value)
    (hlen : cols.length = vals.length) (k : String) :
    hasKey (buildRow cols vals) k = true ↔ k ∈ cols := by
  unfold buildRow
  rw [hasKey_foldl]
  simp only [hasKey, List.any_nil, Bool.or_false]
  rw [List.any_eq_true]
  constructor
  · rintro ⟨p, hmem, hpk⟩
    have h1 := (List.of_mem_zip hmem).1
    have h2 : p.1 = k := by simpa using hpk
    exact h2 ▸ h1
  · intro hk
    have hmapped : k ∈ (cols.zip vals).map Prod.fst := by
      rw [List.map_fst_zip cols vals (le_of_eq hlen)]
      exact hk
    obtain ⟨p, hmem, hpk⟩ := List.mem_map.mp hmapped
    exact ⟨p, hmem, by simp [hpk]⟩

theorem getVal_foldl_no_key (l : List (String × Value))
    (m0 : List (String × Value)) (k : String)
    (h : ∀ p ∈ l, p.1 ≠ k) :
    getVal (l.foldl (fun m p => mapSet m p.1 p.2) m0) k = getVal m0 k := by
  induction l generalizing m0 with
  | nil => rfl
  | cons p l ih =>
    simp only [List.foldl_cons]
    rw [ih _ fun q hq => h q (List.mem_cons_of_mem p hq)]
    exact getVal_mapSet_ne m0 p.1 p.2 k (h p (List.mem_cons_self p l))

theorem getVal_foldl_mem (l : List (String × Value))
    (m0 : List (String × Value)) (k : String) (v : Value)
    (hmem : (k, v) ∈ l) (hnd : (l.map Prod.fst).Nodup) :
    getVal (l.foldl (fun m p => mapSet m p.1 p.2) m0) k = some v := by
  induction l generalizing m0 with
  | nil => cases hmem
  | cons p l ih =>
    simp only [List.map_cons, List.nodup_cons] at hnd
    rcases List.mem_cons.mp hmem with heq | htail
    · subst heq
      simp only [List.foldl_cons]
      rw [getVal_foldl_no_key]
      · exact getVal_mapSet_self m0 k v
      · intro q hq hqk
        have hq1 : q.1 ∈ l.map Prod.fst := List.mem_map_of_mem Prod.fst hq
        rw [hqk] at hq1
        exact hnd.1 hq1
    · simp only [List.foldl_cons]
      exact ih _ htail hnd.2

theorem getVal_buildRow_nodup (cols : List String) (vals : List Value)
    (hnd : cols.Nodup) (hlen : cols.length = vals.length)
    (i : Nat) (hi : i < cols.length)
    (hv : vals[i]? = some Value.null) :
    getVal (buildRow cols vals) cols[i] = some Value.null := by
  unfold buildRow
  have hiv : i < vals.length := hlen ▸ hi
  have hzip : (cols[i], Value.null) ∈ cols.zip vals := by
    have : (cols.zip vals)[i]? = some (cols[i], vals[i]) := by
      rw [List.getElem?_zip_eq_some]
      exact ⟨List.getElem?_eq_getElem hi, List.getElem?_eq_getElem hiv⟩
    have hv' : vals[i] = Value.null := by
      have := List.getElem?_eq_getElem hiv
      rw [hv] at this
      exact (Option.some.inj this).symm
    rw [hv'] at this
    exact List.getElem?_mem this
  have hndz : ((cols.zip vals).map Prod.fst).Nodup := by
    rw [List.map_fst_zip cols vals (le_of_eq hlen)]
    exact hnd
  exact getVal_foldl_mem _ _ _ _ hzip hndz

/-! ### Claim theorems -/

/-- Claim C1: for every valid SELECT text (nonempty after trimming and
classified as a SELECT by the parser) lacking the token LIMIT
(case-insensitive, anywhere), the SQL text submitted to the database is the
trimmed input with ` LIMIT 100` appended; for text already containing
LIMIT, the trimmed input is submitted unmodified. -/
theorem runQuery_limit_injection (parse : String → Except String StmtKind)
    (db : String → Except String Cursor) (req : QueryRequest)
    (hne : trimSpace req.SQL ≠ "")
    (hp : parse (trimSpace req.SQL) = .ok .select) :
    (containsLimit (trimSpace req.SQL) = false →
      (RunQuery parse db (some req)).submitted =
        some (trimSpace req.SQL ++ " LIMIT 100")) ∧
    (containsLimit (trimSpace req.SQL) = true →
      (RunQuery parse db (some req)).submitted = some (trimSpace req.SQL)) := by
  have hrun : RunQuery parse db (some req) =
      execPhase db
        (if !containsLimit (trimSpace req.SQL)
          then trimSpace req.SQL ++ " LIMIT 100" else trimSpace req.SQL)
        (trimSpace req.SQL) := by
    show handleSql parse db (trimSpace req.SQL) = _
    unfold handleSql
    rw [if_neg hne, hp]
  constructor <;> intro hcl <;>
    simp [hrun, hcl, execPhase_submitted]

theorem runQuery_limit_injection_witness :
    containsLimit (trimSpace "select * from users") = false ∧
      (RunQuery specClassify noDb (some ⟨"select * from users"⟩)).submitted =
        some (trimSpace "select * from users" ++ " LIMIT 100") :=
  ⟨by decide,
   (runQuery_limit_injection specClassify noDb ⟨"select * from users"⟩
      (by decide) (by decide)).1 (by decide)⟩

/-- Claim C2: for every input whose parsed statement kind is not a plain
SELECT, RunQuery returns a 400 policy-violation rejection and never submits
any SQL to the database. -/
theorem runQuery_rejects_nonselect (parse : String → Except String StmtKind)
    (db : String → Except String Cursor) (req : QueryRequest) (k : StmtKind)
    (hne : trimSpace req.SQL ≠ "")
    (hp : parse (trimSpace req.SQL) = .ok k) (hk : k ≠ .select) :
    RunQuery parse db (some req) =
      { status := 400, body := .err "Only SELECT statements are allowed",
        parsed := some (trimSpace req.SQL), submitted := none } := by
  show handleSql parse db (trimSpace req.SQL) = _
  unfold handleSql
  rw [if_neg hne, hp]
  cases k
  · exact absurd rfl hk
  all_goals rfl

theorem runQuery_rejects_nonselect_witness :
    RunQuery specClassify noDb (some ⟨"DELETE FROM users"⟩) =
      { status := 400, body := .err "Only SELECT statements are allowed",
        parsed := some (trimSpace "DELETE FROM users"), submitted := none } :=
  runQuery_rejects_nonselect specClassify noDb ⟨"DELETE FROM users"⟩ .delete
    (by decide) (by decide) (by decide)

/-- Claim C3: the input `"  select * from users; drop table users;"` is
rejected with the policy violation (not any other error class) and no SQL
is submitted to the database, for every database behavior. -/
theorem runQuery_chained_statement_rejected (db : String → Except String Cursor) :
    RunQuery specClassify db
        (some ⟨"  select * from users; drop table users;"⟩) =
      { status := 400, body := .err "Only SELECT statements are allowed",
        parsed := some "select * from users; drop table users;",
        submitted := none } := by
  have ht : trimSpace "  select * from users; drop table users;" =
      "select * from users; drop table users;" := by decide
  have hp : specClassify "select * from users; drop table users;" =
      .ok .multi := by decide
  show handleSql specClassify db
      (trimSpace "  select * from users; drop table users;") = _
  rw [ht]
  unfold handleSql
  rw [if_neg (by decide), hp]

/-- Claim C4: every row of a successful QueryResult has exactly the key set
of the returned column descriptor: every column name is a present key and
no key lies outside the descriptor. -/
theorem runQuery_result_keys (parse : String → Except String StmtKind)
    (db : String → Except String Cursor) (reqBody : Option QueryRequest)
    (cols : List String) (rws : List (List (String × Value)))
    (h : (RunQuery parse db reqBody).body = .result cols rws) :
    ∀ r ∈ rws, ∀ k, (hasKey r k = true ↔ k ∈ cols) := by
  intro r hr k
  rcases reqBody with _ | req
  · simp [RunQuery] at h
  · replace h : (handleSql parse db (trimSpace req.SQL)).body =
        .result cols rws := h
    unfold handleSql at h
    by_cases he : trimSpace req.SQL = ""
    · rw [if_pos he] at h; simp at h
    · rw [if_neg he] at h
      cases hp : parse (trimSpace req.SQL) <;> simp only [hp] at h
      · simp at h
      · rename_i kind
        cases kind
        · obtain ⟨cur, hdb, hc, hs⟩ := execPhase_result h
          obtain ⟨vals, hlen, rfl⟩ := scanRows_mem hs r hr
          exact hasKey_buildRow cols vals hlen.symm k
        all_goals simp at h

theorem runQuery_result_keys_witness :
    hasKey [("x", Value.int 1)] "x" = true ↔ "x" ∈ ["x"] :=
  runQuery_result_keys specClassify demoDb (some ⟨"SELECT 1 AS x"⟩) ["x"]
    [[("x", Value.int 1)]] (by decide) [("x", Value.int 1)] (by decide) "x"

/-- Claim C5: every empty or whitespace-only SQL input is rejected with the
400 validation error before any parsing: the parser is never invoked and no
SQL is submitted. -/
theorem runQuery_empty_rejected (parse : String → Except String StmtKind)
    (db : String → Except String Cursor) (req : QueryRequest)
    (he : trimSpace req.SQL = "") :
    RunQuery parse db (some req) =
      { status := 400, body := .err "SQL cannot be empty",
        parsed := none, submitted := none } := by
  show handleSql parse db (trimSpace req.SQL) = _
  rw [he]
  rfl

theorem runQuery_empty_rejected_witness :
    RunQuery specClassify noDb (some ⟨"   "⟩) =
      { status := 400, body := .err "SQL cannot be empty",
        parsed := none, submitted := none } :=
  runQuery_empty_rejected specClassify noDb ⟨"   "⟩ (by decide)

/-- Claim C6: whenever a row scan fails or the driver reports a
mid-iteration error, RunQuery returns a 500 error response and no partial
list of decoded rows is returned: the payload is an error, not a result. -/
theorem runQuery_scan_failure_aborts (parse : String → Except String StmtKind)
    (db : String → Except String Cursor) (req : QueryRequest)
    (cur : Cursor) (cols : List String)
    (hne : trimSpace req.SQL ≠ "")
    (hp : parse (trimSpace req.SQL) = .ok .select)
    (hdb : db (if !containsLimit (trimSpace req.SQL)
        then trimSpace req.SQL ++ " LIMIT 100" else trimSpace req.SQL) =
      .ok cur)
    (hc : cur.columnsRes = .ok cols)
    (hbad : cur.scannedRows.any isScanErr = true ∨ cur.iterErr.isSome = true) :
    (RunQuery parse db (some req)).status = 500 ∧
      ∃ m, (RunQuery parse db (some req)).body = .err m := by
  have hrun : RunQuery parse db (some req) =
      execPhase db
        (if !containsLimit (trimSpace req.SQL)
          then trimSpace req.SQL ++ " LIMIT 100" else trimSpace req.SQL)
        (trimSpace req.SQL) := by
    show handleSql parse db (trimSpace req.SQL) = _
    unfold handleSql
    rw [if_neg hne, hp]
  rw [hrun]
  unfold execPhase
  simp only [hdb, hc]
  cases hs : scanRows cols cur.scannedRows <;> simp only [hs]
  · simp
  · have hnoerr := scanRows_ok_no_error hs
    rcases hbad with hbad | hbad
    · rw [hnoerr] at hbad; cases hbad
    · cases hie : cur.iterErr <;> simp only [hie]
      · rw [hie] at hbad; cases hbad
      · simp

theorem runQuery_scan_failure_witness :
    (RunQuery specClassify failScanDb (some ⟨"SELECT 1 AS x"⟩)).status = 500 ∧
      ∃ m, (RunQuery specClassify failScanDb
          (some ⟨"SELECT 1 AS x"⟩)).body = .err m :=
  runQuery_scan_failure_aborts specClassify failScanDb ⟨"SELECT 1 AS x"⟩
    { columnsRes := .ok ["x"], scannedRows := [.error "connection reset"],
      iterErr := none }
    ["x"] (by decide) (by decide) rfl rfl (Or.inl (by decide))

/-- Claim C7, as stated, is refuted by a duplicated column name: the column
descriptor `["a", "a"]` with row values `[null, 1]` materializes to a map
binding `"a"` to `1`, so the column holding the null is a present key but is
not bound to an explicit null. -/
theorem dup_column_null_lost :
    ¬(getVal (buildRow ["a", "a"] [Value.null, Value.int 1]) "a" =
        some Value.null) := by decide

/-- Claim C7 (amended): when the column descriptor has pairwise distinct
names, a result row holding an SQL NULL in some column materializes to a
map where that column name is a present key bound to the explicit null
value, not an absent key. -/
theorem buildRow_null_cell (cols : List String) (vals : List Value)
    (hnd : cols.Nodup) (hlen : cols.length = vals.length)
    (i : Nat) (hi : i < cols.length)
    (hv : vals[i]? = some Value.null) :
    hasKey (buildRow cols vals) cols[i] = true ∧
      getVal (buildRow cols vals) cols[i] = some Value.null :=
  ⟨(hasKey_buildRow cols vals hlen cols[i]).mpr (cols.getElem_mem hi),
   getVal_buildRow_nodup cols vals hnd hlen i hi hv⟩

theorem buildRow_null_cell_witness :
    hasKey (buildRow ["a", "b"] [Value.null, Value.int 2]) "a" = true ∧
      getVal (buildRow ["a", "b"] [Value.null, Value.int 2]) "a" =
        some Value.null :=
  buildRow_null_cell ["a", "b"] [Value.null, Value.int 2]
    (by decide) (by decide) 0 (by decide) (by decide)

/-- Claim C8: executing `SELECT 1 AS x` (the parser classifying it as a
SELECT, the database answering the LIMIT-injected text with one column `x`
and one row `[1]`) yields the 200 response with columns `["x"]` and the
single row binding `x` to `1`. -/
theorem runQuery_select_one (parse : String → Except String StmtKind)
    (db : String → Except String Cursor)
    (hp : parse "SELECT 1 AS x" = .ok .select)
    (hdb : db "SELECT 1 AS x LIMIT 100" =
      .ok { columnsRes := .ok ["x"], scannedRows := [.ok [.int 1]],
            iterErr := none }) :
    RunQuery parse db (some ⟨"SELECT 1 AS x"⟩) =
      { status := 200, body := .result ["x"] [[("x", Value.int 1)]],
        parsed := some "SELECT 1 AS x",
        submitted := some "SELECT 1 AS x LIMIT 100" } := by
  have ht : trimSpace "SELECT 1 AS x" = "SELECT 1 AS x" := by decide
  show handleSql parse db (trimSpace "SELECT 1 AS x") = _
  rw [ht]
  unfold handleSql
  rw [if_neg (by decide), hp]
  show execPhase db "SELECT 1 AS x LIMIT 100" "SELECT 1 AS x" = _
  unfold execPhase
  rw [hdb]
  rfl

theorem runQuery_select_one_witness :
    RunQuery specClassify demoDb (some ⟨"SELECT 1 AS x"⟩) =
      { status := 200, body := .result ["x"] [[("x", Value.int 1)]],
        parsed := some "SELECT 1 AS x",
        submitted := some "SELECT 1 AS x LIMIT 100" } :=
  runQuery_select_one specClassify demoDb (by decide) rfl

/-- Claim C9: every nonempty input the parser rejects produces the 400
response carrying the parser diagnostic behind "SQL syntax error: ", and no
SQL is ever submitted to the database. -/
theorem runQuery_syntax_error_no_submission
    (parse : String → Except String StmtKind)
    (db : String → Except String Cursor) (req : QueryRequest) (e : String)
    (hne : trimSpace req.SQL ≠ "")
    (hp : parse (trimSpace req.SQL) = .error e) :
    RunQuery parse db (some req) =
      { status := 400, body := .err ("SQL syntax error: " ++ e),
        parsed := some (trimSpace req.SQL), submitted := none } := by
  show handleSql parse db (trimSpace req.SQL) = _
  unfold handleSql
  rw [if_neg hne, hp]

theorem runQuery_syntax_error_witness :
    RunQuery specClassify noDb (some ⟨"SELEKT 1"⟩) =
      { status := 400, body := .err ("SQL syntax error: " ++ "syntax error"),
        parsed := some (trimSpace "SELEKT 1"), submitted := none } :=
  runQuery_syntax_error_no_submission specClassify noDb ⟨"SELEKT 1"⟩
    "syntax error" (by decide) (by decide)

/-- Claim C10: a request whose body is not valid JSON for QueryRequest gets
the 400 response with error "Invalid JSON"; the parser is never invoked and
no SQL is submitted. -/
theorem runQuery_invalid_json (parse : String → Except String StmtKind)
    (db : String → Except String Cursor) :
    RunQuery parse db none =
      { status := 400, body := .err "Invalid JSON",
        parsed := none, submitted := none } := rfl
